import Mathlib

/-!
Verification of the analytical query layer of the Stats-Code dashboard
(`streamlit_app.py`).

The business logic of the application is the set of eight SQL queries in the
`SQL` dictionary, executed by an embedded analytical engine against one
denormalized transaction table, plus the widget code that post-processes each
query's result.  This file gives a shallow embedding of that layer:

* a transaction row is a record `(account, type, date, credit)`; dates are
  modelled as integer day numbers (the engine's `DATE` ordering and
  `DATE - DATE` day arithmetic), and `credit` as an exact integer amount;
  the ratios the queries derive (attach rate, cumulative percentage, average
  days) are exact rationals, introduced at the positions where the SQL
  divides;
* string comparison (`ORDER BY account`, `a1.type < a2.type`) is the engine's
  codepoint-lexicographic collation, implemented here on `String.data`;
* each query is translated clause by clause: `GROUP BY` becomes a map over
  the list of distinct keys, `MIN`/`SUM` become list folds, window functions
  keep their default RANGE frame, `ORDER BY` becomes an insertion sort, and
  an aggregate over an empty join — or a division whose denominator is zero —
  yields `none`, the engine's NULL.
-/

/-! ### Codepoint collation on strings -/

/-- Lexicographic strict order on character lists, comparing codepoints. -/
def chLt : List Char → List Char → Bool
  | [], [] => false
  | [], _ :: _ => true
  | _ :: _, [] => false
  | a :: as, b :: bs =>
    if a.toNat < b.toNat then true
    else if b.toNat < a.toNat then false
    else chLt as bs

/-- `a` sorts strictly before `b` in the engine's collation. -/
def slt (a b : String) : Prop := chLt a.data b.data = true

/-- `a` sorts no later than `b` in the engine's collation. -/
def sle (a b : String) : Prop := chLt b.data a.data = false

instance : DecidableRel slt := fun _ _ => inferInstanceAs (Decidable (_ = true))

instance : DecidableRel sle := fun _ _ => inferInstanceAs (Decidable (_ = false))

/-! ### Data model

One row of the user's transaction table (`account, type, date, credit`).
`date` is the day number of the transaction date; `credit` is the exact
monetary amount. -/

structure Txn where
  account : String
  type : String
  date : Int
  credit : Int
deriving DecidableEq, Repr

/-- The type literals appearing in the SQL texts. -/
def tyLic : String := "FME Licenses"

def tySub : String := "FME Subscription"

def tyCon : String := "FME Consulting"

def tyTrn : String := "FME Training"

def tyEsri : String := "Esri Consulting"

/-- `type IN ('FME Licenses', 'FME Subscription')` — a core-product row. -/
def isCore (t : Txn) : Bool := t.type == tyLic || t.type == tySub

/-- `SUM(credit)` over a list of rows. -/
def sumCredits (l : List Txn) : Int := (l.map Txn.credit).sum

/-! ### Queries 1–3: the three follow-up funnels (`SQL["consulting"]`,
`SQL["training"]`, `SQL["esri"]`), identical up to the follow-up type. -/

/-- The rows selected by `WHERE type IN ('FME Licenses', 'FME Subscription')`. -/
def coreTxns (txns : List Txn) : List Txn := txns.filter isCore

/-- The distinct accounts of the `FirstInitialPurchase` / `InitialSpend` CTEs
(`GROUP BY account` over the core-product rows). -/
def coreAccounts (txns : List Txn) : List String :=
  ((coreTxns txns).map Txn.account).dedup

/-- `MIN(date)` of the account's core-product rows (`first_initial_date`);
`none` when the account has no core-product row. -/
def firstCoreDate (txns : List Txn) (a : String) : Option Int :=
  (((coreTxns txns).filter (fun t => t.account == a)).map Txn.date).min?

/-- The follow-up rows of the `FollowUpConsultingSpend`-style CTE: type `fu`,
same account, dated strictly after `first_initial_date`. -/
def followUps (fu : String) (txns : List Txn) (a : String) (d0 : Int) : List Txn :=
  txns.filter (fun t => t.account == a && t.type == fu && decide (d0 < t.date))

/-- One output row of the funnel query for account `a`, or `none` when the
inner join drops the account (no core purchase, or no qualifying follow-up
row so that the grouped CTE has no group for `a`). -/
def funnelRow (fu : String) (txns : List Txn) (a : String) : Option (String × Int × Int) :=
  (firstCoreDate txns a).bind fun d0 =>
    if followUps fu txns a d0 = [] then none
    else some (a, sumCredits ((coreTxns txns).filter (fun t => t.account == a)),
      sumCredits (followUps fu txns a d0))

/-- The funnel query: inner join of `InitialSpend` and the follow-up CTE,
`ORDER BY i.account`. -/
def funnel (fu : String) (txns : List Txn) : List (String × Int × Int) :=
  ((coreAccounts txns).insertionSort sle).filterMap (funnelRow fu txns)

/-- The end-to-end example table of the specification: account A buys a
license on 2023-01-01 (day 1) for 100 and consulting on 2023-02-01 (day 32)
for 50; account B buys a subscription on 2023-01-10 (day 10) for 200. -/
def exC1 : List Txn :=
  [⟨"A", tyLic, 1, 100⟩, ⟨"A", tyCon, 32, 50⟩, ⟨"B", tySub, 10, 200⟩]

/-! ### Query 4: revenue concentration (`SQL["revcon"]`) -/

/-- The rows of one account (`GROUP BY account` over the whole table). -/
def acctTxns (txns : List Txn) (a : String) : List Txn :=
  txns.filter (fun t => t.account == a)

/-- The distinct accounts of the table. -/
def accountsOf (txns : List Txn) : List String := (txns.map Txn.account).dedup

/-- The `CustomerTotalRevenue` CTE: per account, `SUM(credit)` over all types. -/
def totalsList (txns : List Txn) : List (String × Int) :=
  (accountsOf txns).map fun a => (a, sumCredits (acctTxns txns a))

/-- `(SELECT SUM(total_revenue) FROM CustomerTotalRevenue)` — the grand total. -/
def grandTotal (txns : List Txn) : Int := ((totalsList txns).map Prod.snd).sum

/-- `SUM(total_revenue) OVER (ORDER BY total_revenue DESC)` with the default
RANGE frame: the frame of a row ranges from the start through the row's last
peer, so the window sum is the sum of every total at least as large as the
row's own total. -/
def cumRange (txns : List Txn) (r : Int) : Int :=
  (((totalsList txns).filter fun p => decide (r ≤ p.2)).map Prod.snd).sum

/-- `cumulative_revenue / grand_total * 100`; the engine evaluates a division
with zero denominator to NULL (`none`), not an error. -/
def pctOf (txns : List Txn) (c : Int) : Option ℚ :=
  if grandTotal txns = 0 then none
  else some ((c : ℚ) / (grandTotal txns : ℚ) * 100)

/-- One output row of the revenue-concentration query. -/
structure RevRow where
  account : String
  total : Int
  cum : Int
  pct : Option ℚ
deriving DecidableEq, Repr

/-- `ORDER BY total_revenue DESC` — the query fixes no secondary key. -/
def revDesc (x y : String × Int) : Prop := y.2 ≤ x.2

instance : DecidableRel revDesc := fun x y => inferInstanceAs (Decidable (y.2 ≤ x.2))

instance : IsTotal (String × Int) revDesc := ⟨fun x y => le_total y.2 x.2⟩

instance : IsTrans (String × Int) revDesc := ⟨fun _ _ _ h h' => le_trans h' h⟩

/-- The revenue-concentration query. -/
def revcon (txns : List Txn) : List RevRow :=
  ((totalsList txns).insertionSort revDesc).map fun p =>
    ⟨p.1, p.2, cumRange txns p.2, pctOf txns (cumRange txns p.2)⟩

/-! ### Query 5: training attach rate (`SQL["attach"]`) -/

/-- The `AttachServiceCustomers` CTE: distinct accounts with a Training row. -/
def trainingAccounts (txns : List Txn) : List String :=
  ((txns.filter fun t => t.type == tyTrn).map Txn.account).dedup

/-- `COUNT(*) FROM AttachServiceCustomers WHERE account IN (SELECT account
FROM CoreProductCustomers)`. -/
def attachNum (txns : List Txn) : ℕ :=
  ((trainingAccounts txns).filter fun a => (coreAccounts txns).contains a).length

/-- `COUNT(*) FROM CoreProductCustomers`. -/
def attachDen (txns : List Txn) : ℕ := (coreAccounts txns).length

/-- `training_attach_rate_percentage`: NULL (`none`) when the denominator is
zero, by the engine's division semantics. -/
def attachRate (txns : List Txn) : Option ℚ :=
  if attachDen txns = 0 then none
  else some ((attachNum txns : ℚ) * 100 / (attachDen txns : ℚ))

/-- What a scalar-metric widget shows: either the numeric value or the
explicit no-data dash rendered when the scalar is NULL/NaN. -/
inductive MetricDisplay
  | noData
  | value (q : ℚ)
deriving DecidableEq, Repr

/-- The attach-rate `st.metric` widget: `"—"` unless the scalar is present. -/
def attachWidget (txns : List Txn) : MetricDisplay :=
  match attachRate txns with
  | none => .noData
  | some v => .value v

/-! ### Query 6: service basket (`SQL["basket"]`) -/

/-- The joined rows `(a1.type, a2.type, a1.account)` of the self join
`ON a1.account = a2.account AND a1.type < a2.type`. -/
def basketRows (txns : List Txn) : List (String × String × String) :=
  txns.flatMap fun x =>
    (txns.filter fun y => x.account == y.account && decide (slt x.type y.type)).map
      fun y => (x.type, y.type, x.account)

/-- The distinct `(service_1, service_2)` groups. -/
def basketKeys (txns : List Txn) : List (String × String) :=
  ((basketRows txns).map fun r => (r.1, r.2.1)).dedup

/-- `COUNT(DISTINCT a1.account)` within one group. -/
def basketCount (txns : List Txn) (t1 t2 : String) : ℕ :=
  ((((basketRows txns).filter fun r => r.1 == t1 && r.2.1 == t2).map
    fun r => r.2.2).dedup).length

/-- `ORDER BY number_of_customers DESC`. -/
def cntDesc (x y : String × String × ℕ) : Prop := y.2.2 ≤ x.2.2

instance : DecidableRel cntDesc := fun x y => inferInstanceAs (Decidable (y.2.2 ≤ x.2.2))

instance : IsTotal (String × String × ℕ) cntDesc := ⟨fun x y => le_total y.2.2 x.2.2⟩

instance : IsTrans (String × String × ℕ) cntDesc := ⟨fun _ _ _ h h' => le_trans h' h⟩

/-- The service-basket query. -/
def basket (txns : List Txn) : List (String × String × ℕ) :=
  ((basketKeys txns).map fun k => (k.1, k.2, basketCount txns k.1 k.2)).insertionSort cntDesc

/-! ### Query 7: time to training (`SQL["timetosvc"]`) -/

/-- `MIN(t.date)` over the account's Training rows dated strictly after its
first core purchase (`FirstFollowUp`). -/
def firstTrainingAfter (txns : List Txn) (a : String) (d0 : Int) : Option Int :=
  ((txns.filter fun t => t.account == a && t.type == tyTrn && decide (d0 < t.date)).map
    Txn.date).min?

/-- The joined rows of `FirstPurchase ⋈ FirstFollowUp`: qualifying account and
`first_training_date - first_date` in days. -/
def ttRows (txns : List Txn) : List (String × Int) :=
  (coreAccounts txns).filterMap fun a =>
    (firstCoreDate txns a).bind fun d0 =>
      (firstTrainingAfter txns a d0).map fun d1 => (a, d1 - d0)

/-- `AVG(first_training_date - first_date)`: NULL over the empty join. -/
def avgDays (txns : List Txn) : Option ℚ :=
  if ttRows txns = [] then none
  else some ((((ttRows txns).map fun p => (p.2 : ℚ)).sum) / ((ttRows txns).length : ℚ))

/-- The duration representations the engine may hand to the widget for
`avg_days_to_training`: a plain numeric day count, or a structured duration
(whole days plus leftover seconds, as in a timedelta). -/
inductive EngineDur
  | numeric (q : ℚ)
  | duration (days : Int) (secs : ℕ)
deriving DecidableEq, Repr

/-- The day count a duration representation stands for. -/
def EngineDur.asDays : EngineDur → ℚ
  | .numeric q => q
  | .duration d s => (d : ℚ) + (s : ℚ) / 86400

/-- The widget's conversion of the engine value to days: NULL renders as no
data; a value with a `days` attribute contributes `float(val.days)` — the
whole-day component only; anything else is parsed from its leading text,
which for a plain numeric preserves the value. -/
def widgetDays : Option EngineDur → Option ℚ
  | none => none
  | some (.numeric q) => some q
  | some (.duration d _) => some (d : ℚ)

/-- The time-to-training `st.metric` widget. -/
def timeWidget (v : Option EngineDur) : MetricDisplay :=
  match widgetDays v with
  | none => .noData
  | some q => .value q

/-! ### Query 8 identifier and the module-level widget loop

The eight widgets run at module top level, each calling `run_sql` — which has
no exception handling — and then rendering.  An exception raised by one query
therefore ends the script run: the framework surfaces the error and no later
widget is evaluated. -/

inductive QueryId
  | consulting | training | esri | revcon | attach | basket | timetosvc | trends
deriving DecidableEq, Repr

/-- The order in which the module's top level evaluates the widgets. -/
def queryOrder : List QueryId :=
  [.consulting, .training, .esri, .revcon, .attach, .basket, .timetosvc, .trends]

/-- Evaluate widgets in order against a source; an engine failure aborts the
run, surfacing that failure. -/
def renderSeq {T : Type} (src : QueryId → Except String T) :
    List QueryId → List (QueryId × T) × Option String
  | [] => ([], none)
  | q :: qs =>
    match src q with
    | .error e => ([], some e)
    | .ok t => ((q, t) :: (renderSeq src qs).1, (renderSeq src qs).2)

/-- One script run: the widgets rendered, and the surfaced error if any. -/
def runDashboard {T : Type} (src : QueryId → Except String T) :
    List (QueryId × T) × Option String :=
  renderSeq src queryOrder

def isOkB {T : Type} : Except String T → Bool
  | .ok _ => true
  | .error _ => false

def errOf {T : Type} : Except String T → Option String
  | .ok _ => none
  | .error e => some e

/-! ### Widget post-processing (chart series versus displayed table) -/

/-- `df.sort_values(<follow-up spend>, ascending=False)` on a funnel result. -/
def spendDesc (x y : String × Int × Int) : Prop := y.2.2 ≤ x.2.2

instance : DecidableRel spendDesc := fun x y => inferInstanceAs (Decidable (y.2.2 ≤ x.2.2))

instance : IsTotal (String × Int × Int) spendDesc := ⟨fun x y => le_total y.2.2 x.2.2⟩

instance : IsTrans (String × Int × Int) spendDesc := ⟨fun _ _ _ h h' => le_trans h' h⟩

/-- The bar-chart series of a funnel widget: `df_top = df.sort_values(...)
.head(top_n_accounts)`. -/
def funnelChart (fu : String) (txns : List Txn) (n : ℕ) : List (String × Int × Int) :=
  ((funnel fu txns).insertionSort spendDesc).take n

/-- The table a funnel widget displays: `st.dataframe(df)` on the untouched
query result. -/
def funnelTable (fu : String) (txns : List Txn) : List (String × Int × Int) :=
  funnel fu txns

/-- The revenue-concentration chart series `(rank, cumulative_percentage)`:
the synthetic `(0, 0.0)` start row prepended to the ranked rows. -/
def revconChart (txns : List Txn) : List (ℕ × Option ℚ) :=
  (0, some 0) :: ((revcon txns).enum.map fun p => (p.1 + 1, p.2.pct))

/-- The table the revenue-concentration widget displays: the untouched query
result (`df`, not `df_plot`). -/
def revconTable (txns : List Txn) : List RevRow := revcon txns

/-- The rows of the table the service-basket widget displays: when the result
is non-empty the widget reassigns `df = df.sort_values(...).head(top_n_pairs)`
before `st.dataframe(df)`, so the displayed table is the truncated frame. -/
def basketTableRows (txns : List Txn) (n : ℕ) : List (String × String × ℕ) :=
  if basket txns = [] then []
  else ((basket txns).insertionSort cntDesc).take n

/-- The `pair` labels (`service_1 + " + " + service_2`) the widget adds. -/
def basketPairLabels (txns : List Txn) (n : ℕ) : List String :=
  (basketTableRows txns n).map fun r => r.1 ++ (" + " ++ r.2.1)

/-! ### Construction of the SQL texts (`T = table_name`; `SQL = {...}`)

The eight texts are Python f-strings: the user-supplied table name is spliced
verbatim at every `FROM {T}` position.  The fragments below reproduce the
texts clause for clause (with the quote characters of the SQL string
literals left out). -/

def cFrag1 : String :=
  "WITH FirstInitialPurchase AS ( SELECT account, MIN(date) AS first_initial_date FROM "

def cFrag2 : String :=
  " WHERE type IN (FME Licenses, FME Subscription) GROUP BY account ), InitialSpend AS ( SELECT account, SUM(credit) AS total_license_subscription_spend FROM "

def cFrag3 : String :=
  " WHERE type IN (FME Licenses, FME Subscription) GROUP BY account ), FollowUpConsultingSpend AS ( SELECT fip.account, SUM(ad.credit) AS total_fme_consulting_spend FROM "

def cFrag4 : String :=
  " AS ad JOIN FirstInitialPurchase AS fip ON ad.account = fip.account WHERE ad.type = FME Consulting AND ad.date > fip.first_initial_date GROUP BY fip.account ) SELECT i.account, i.total_license_subscription_spend, f.total_fme_consulting_spend FROM InitialSpend AS i JOIN FollowUpConsultingSpend AS f ON i.account = f.account ORDER BY i.account;"

def consultingSQL (t : String) : String :=
  cFrag1 ++ (t ++ (cFrag2 ++ (t ++ (cFrag3 ++ (t ++ cFrag4)))))

def tFrag3 : String :=
  " WHERE type IN (FME Licenses, FME Subscription) GROUP BY account ), FollowUpTrainingSpend AS ( SELECT fip.account, SUM(ad.credit) AS total_fme_training_spend FROM "

def tFrag4 : String :=
  " AS ad JOIN FirstInitialPurchase AS fip ON ad.account = fip.account WHERE ad.type = FME Training AND ad.date > fip.first_initial_date GROUP BY fip.account ) SELECT i.account, i.total_license_subscription_spend, f.total_fme_training_spend FROM InitialSpend AS i JOIN FollowUpTrainingSpend AS f ON i.account = f.account ORDER BY i.account;"

def trainingSQL (t : String) : String :=
  cFrag1 ++ (t ++ (cFrag2 ++ (t ++ (tFrag3 ++ (t ++ tFrag4)))))

def eFrag3 : String :=
  " WHERE type IN (FME Licenses, FME Subscription) GROUP BY account ), FollowUpEsRiSpend AS ( SELECT fip.account, SUM(ad.credit) AS total_esri_consulting_spend FROM "

def eFrag4 : String :=
  " AS ad JOIN FirstInitialPurchase AS fip ON ad.account = fip.account WHERE ad.type = Esri Consulting AND ad.date > fip.first_initial_date GROUP BY fip.account ) SELECT i.account, i.total_license_subscription_spend, f.total_esri_consulting_spend FROM InitialSpend AS i JOIN FollowUpEsRiSpend AS f ON i.account = f.account ORDER BY i.account;"

def esriSQL (t : String) : String :=
  cFrag1 ++ (t ++ (cFrag2 ++ (t ++ (eFrag3 ++ (t ++ eFrag4)))))

def rFrag1 : String :=
  "WITH CustomerTotalRevenue AS ( SELECT account, SUM(credit) AS total_revenue FROM "

def rFrag2 : String :=
  " GROUP BY account ), RunningTotal AS ( SELECT account, total_revenue, SUM(total_revenue) OVER (ORDER BY total_revenue DESC) AS cumulative_revenue FROM CustomerTotalRevenue ) SELECT account, total_revenue, cumulative_revenue, cumulative_revenue / (SELECT SUM(total_revenue) FROM CustomerTotalRevenue) * 100 AS cumulative_percentage FROM RunningTotal ORDER BY total_revenue DESC;"

def revconSQL (t : String) : String := rFrag1 ++ (t ++ rFrag2)

def aFrag1 : String := "WITH CoreProductCustomers AS ( SELECT DISTINCT account FROM "

def aFrag2 : String :=
  " WHERE type IN (FME Licenses, FME Subscription) ), AttachServiceCustomers AS ( SELECT DISTINCT account FROM "

def aFrag3 : String :=
  " WHERE type = FME Training ) SELECT (SELECT COUNT(*) FROM AttachServiceCustomers WHERE account IN (SELECT account FROM CoreProductCustomers)) * 100.0 / (SELECT COUNT(*) FROM CoreProductCustomers) AS training_attach_rate_percentage;"

def attachSQL (t : String) : String := aFrag1 ++ (t ++ (aFrag2 ++ (t ++ aFrag3)))

def bFrag1 : String :=
  "SELECT a1.type AS service_1, a2.type AS service_2, COUNT(DISTINCT a1.account) AS number_of_customers FROM "

def bFrag2 : String := " a1 JOIN "

def bFrag3 : String :=
  " a2 ON a1.account = a2.account AND a1.type < a2.type GROUP BY service_1, service_2 ORDER BY number_of_customers DESC;"

def basketSQL (t : String) : String := bFrag1 ++ (t ++ (bFrag2 ++ (t ++ bFrag3)))

def sFrag1 : String := "WITH FirstPurchase AS ( SELECT account, MIN(date) AS first_date FROM "

def sFrag2 : String :=
  " WHERE type IN (FME Licenses, FME Subscription) GROUP BY account ), FirstFollowUp AS ( SELECT t.account, MIN(t.date) AS first_training_date FROM "

def sFrag3 : String :=
  " t JOIN FirstPurchase fp ON t.account = fp.account WHERE t.type = FME Training AND t.date > fp.first_date GROUP BY t.account ) SELECT AVG(first_training_date - first_date) AS avg_days_to_training FROM FirstPurchase fp JOIN FirstFollowUp ff ON fp.account = ff.account;"

def timetosvcSQL (t : String) : String := sFrag1 ++ (t ++ (sFrag2 ++ (t ++ sFrag3)))

def mFrag1 : String :=
  "SELECT strftime(date, Y-m) AS sales_month, type, SUM(credit) AS monthly_revenue FROM "

def mFrag2 : String := " GROUP BY sales_month, type ORDER BY sales_month, type;"

def trendsSQL (t : String) : String := mFrag1 ++ (t ++ mFrag2)

/-- The eight SQL texts built for the user-supplied table name. -/
def queryTexts (t : String) : List String :=
  [consultingSQL t, trainingSQL t, esriSQL t, revconSQL t, attachSQL t,
    basketSQL t, timetosvcSQL t, trendsSQL t]

/-- A character the source schema allows in an unquoted identifier. -/
def legalChar (c : Char) : Bool := c.isAlphanum || c == '_'

/-- The identifier check the specification asks for (and the code lacks). -/
def legalIdent (t : String) : Bool := !t.data.isEmpty && t.data.all legalChar

/-! ### Concrete tables and sources used in counterexamples and witnesses -/

def acctA : String := "A"

/-- Row-by-row running prefix sums (what the claim asserts the window
computes). -/
def runningSums (acc : Int) : List Int → List Int
  | [] => []
  | x :: xs => (acc + x) :: runningSums (acc + x) xs

/-- Two accounts with equal total revenue. -/
def exC2 : List Txn := [⟨"A", "X", 1, 100⟩, ⟨"B", "Y", 1, 100⟩]

/-- A concrete table for C3's witness. -/
def exC3 : List Txn := [⟨"A", tyLic, 1, 100⟩, ⟨"B", tyCon, 2, 50⟩]

/-- The concrete table for C4's witness: A holds a license and training, B
only a subscription. -/
def exC4 : List Txn := [⟨"A", tyLic, 1, 100⟩, ⟨"A", tyTrn, 2, 10⟩, ⟨"B", tySub, 1, 5⟩]

/-- The distinct accounts holding at least one transaction of type `ty`. -/
def acctSet (txns : List Txn) (ty : String) : Finset String :=
  ((txns.filter fun t => t.type == ty).map Txn.account).toFinset

def sv1 : String := "S1"

def sv2 : String := "S2"

/-- A two-service account for C5's witness. -/
def exC5 : List Txn := [⟨"A", sv1, 1, 1⟩, ⟨"A", sv2, 2, 1⟩]

/-- The concrete table for C7's witness: a license on day 0 and training on
day 45. -/
def exC7 : List Txn := [⟨"A", tyLic, 0, 100⟩, ⟨"A", tyTrn, 45, 10⟩]

def errMsg : String := "Catalog Error: table with name analysis_duckdb does not exist"

/-- A source on which the first query fails and the other seven would
succeed. -/
def srcFail1 : QueryId → Except String Unit := fun q =>
  match q with
  | .consulting => .error errMsg
  | _ => .ok ()

/-- An all-healthy source. -/
def allOk : QueryId → Except String Unit := fun _ => .ok ()

def sv3 : String := "S3"

def sv4 : String := "S4"

/-- One account with four service types: the basket result has six pair rows,
more than the minimum top-N of five. -/
def exC9 : List Txn :=
  [⟨"A", sv1, 1, 1⟩, ⟨"A", sv2, 1, 1⟩, ⟨"A", sv3, 1, 1⟩, ⟨"A", sv4, 1, 1⟩]

def badIdent : String := "x; DROP TABLE t; --"

def badIdent2 : String := "my table"

/-! ### Properties of the collation order -/

lemma chLt_asymm : ∀ {l m : List Char}, chLt l m = true → chLt m l = false := by
  intro l; induction l with
  | nil => intro m _; cases m <;> simp [chLt]
  | cons a as ih =>
    intro m h; cases m with
    | nil => simp [chLt] at h
    | cons b bs =>
      simp only [chLt] at h ⊢
      rcases Nat.lt_trichotomy a.toNat b.toNat with hab | hab | hab
      · simp [hab, Nat.lt_asymm hab]
      · simp only [hab, Nat.lt_irrefl, if_false] at h ⊢
        exact ih h
      · simp [hab, Nat.lt_asymm hab] at h

lemma chLt_connex : ∀ {l m : List Char}, chLt l m = false → chLt m l = false → l = m := by
  intro l; induction l with
  | nil => intro m h _; cases m <;> simp_all [chLt]
  | cons a as ih =>
    intro m h h'; cases m with
    | nil => simp [chLt] at h'
    | cons b bs =>
      simp only [chLt] at h h'
      rcases Nat.lt_trichotomy a.toNat b.toNat with hab | hab | hab
      · simp [hab] at h
      · have hc : a = b := Char.eq_of_val_eq (UInt32.ext hab)
        subst hc
        simp only [Nat.lt_irrefl, if_false] at h h'
        simp [ih h h']
      · simp [hab, Nat.lt_asymm hab] at h'

lemma chLt_trans : ∀ {l m n : List Char},
    chLt l m = true → chLt m n = true → chLt l n = true := by
  intro l; induction l with
  | nil =>
    intro m n h h'
    cases m with
    | nil => simp [chLt] at h
    | cons b bs => cases n with
      | nil => simp [chLt] at h'
      | cons c cs => simp [chLt]
  | cons a as ih =>
    intro m n h h'
    cases m with
    | nil => simp [chLt] at h
    | cons b bs =>
      cases n with
      | nil => simp [chLt] at h'
      | cons c cs =>
        simp only [chLt] at h h' ⊢
        rcases Nat.lt_trichotomy a.toNat b.toNat with hab | hab | hab
        · rcases Nat.lt_trichotomy b.toNat c.toNat with hbc | hbc | hbc
          · simp [Nat.lt_trans hab hbc]
          · simp [hbc ▸ hab]
          · simp [hbc, Nat.lt_asymm hbc] at h'
        · rcases Nat.lt_trichotomy b.toNat c.toNat with hbc | hbc | hbc
          · simp [hab ▸ hbc]
          · have : a.toNat = c.toNat := hab.trans hbc
            simp only [hab, hbc, this, Nat.lt_irrefl, if_false] at h h' ⊢
            exact ih h h'
          · simp [hbc, Nat.lt_asymm hbc] at h'
        · simp [hab, Nat.lt_asymm hab] at h

lemma slt_of_sle_of_ne {a b : String} (h : sle a b) (hne : a ≠ b) : slt a b := by
  unfold sle at h
  unfold slt
  by_contra hlt
  have : a.data = b.data := chLt_connex (Bool.not_eq_true _ ▸ hlt) h
  exact hne (by cases a; cases b; exact congrArg String.mk this)

instance : IsTotal String sle := by
  constructor
  intro a b
  by_cases h : chLt b.data a.data = false
  · exact Or.inl h
  · refine Or.inr ?_
    exact chLt_asymm (Bool.of_not_eq_false h)

instance : IsTrans String sle := by
  constructor
  intro a b c hab hbc
  unfold sle at hab hbc ⊢
  by_contra hca
  have hca' : chLt c.data a.data = true := Bool.of_not_eq_false hca
  rcases Bool.eq_false_or_eq_true (chLt a.data b.data) with h | h
  · exact absurd (chLt_trans hca' h) (by simp [hbc])
  · have : a.data = b.data := chLt_connex h hab
    rw [this] at hca'
    exact absurd hca' (by simp [hbc])

lemma chLt_irrefl : ∀ l : List Char, chLt l l = false := by
  intro l
  induction l with
  | nil => rfl
  | cons a as ih => simp [chLt, ih]

lemma slt_ne {a b : String} (h : slt a b) : a ≠ b := by
  rintro rfl
  rw [slt, chLt_irrefl] at h
  cases h

lemma slt_asymm {a b : String} (h : slt a b) : ¬ slt b a := by
  intro h'
  have := chLt_asymm h
  rw [slt] at h'
  rw [h'] at this
  cases this

/-! ### Shared lemmas -/

lemma min?_int_iff {l : List Int} {a : Int} :
    l.min? = some a ↔ a ∈ l ∧ ∀ b ∈ l, a ≤ b := by
  haveI : Std.Antisymm (α := Int) (· ≤ ·) := ⟨@fun x y h h' => le_antisymm h h'⟩
  exact List.min?_eq_some_iff (fun a => le_refl a) (fun a b => min_choice a b)
    (fun a b c => le_min_iff)

lemma pairwise_filterMap {α β : Type} {R : α → α → Prop} {S : β → β → Prop}
    (f : α → Option β) (h : ∀ a b x y, R a b → f a = some x → f b = some y → S x y) :
    ∀ {l : List α}, l.Pairwise R → (l.filterMap f).Pairwise S := by
  intro l hl
  induction hl with
  | nil => simp
  | @cons a l ha _ ih =>
    cases hfa : f a with
    | none => simpa [List.filterMap_cons, hfa] using ih
    | some x =>
      rw [List.filterMap_cons, hfa]
      refine List.Pairwise.cons ?_ ih
      intro y hy
      obtain ⟨b, hb, hfb⟩ := List.mem_filterMap.mp hy
      exact h a b x y (ha b hb) hfa hfb

lemma firstCoreDate_eq_some_iff {txns : List Txn} {a : String} {d0 : Int} :
    firstCoreDate txns a = some d0 ↔
      (∃ u ∈ txns, isCore u = true ∧ u.account = a ∧ u.date = d0) ∧
      ∀ v ∈ txns, isCore v = true → v.account = a → d0 ≤ v.date := by
  unfold firstCoreDate
  rw [min?_int_iff]
  constructor
  · rintro ⟨hmem, hmin⟩
    constructor
    · obtain ⟨t, ht, hdt⟩ := List.mem_map.mp hmem
      obtain ⟨ht', hacc⟩ := List.mem_filter.mp ht
      obtain ⟨htx, hcore⟩ := List.mem_filter.mp ht'
      exact ⟨t, htx, hcore, by simpa using hacc, hdt⟩
    · intro v hv hcore hacc
      exact hmin v.date (List.mem_map.mpr
        ⟨v, List.mem_filter.mpr ⟨List.mem_filter.mpr ⟨hv, hcore⟩, by simp [hacc]⟩, rfl⟩)
  · rintro ⟨⟨u, hu, hcore, hacc, hdt⟩, hmin⟩
    constructor
    · exact List.mem_map.mpr
        ⟨u, List.mem_filter.mpr ⟨List.mem_filter.mpr ⟨hu, hcore⟩, by simp [hacc]⟩, hdt⟩
    · intro b hb
      obtain ⟨t, ht, hdt'⟩ := List.mem_map.mp hb
      obtain ⟨ht', hacc'⟩ := List.mem_filter.mp ht
      obtain ⟨htx, hcore'⟩ := List.mem_filter.mp ht'
      exact hdt' ▸ hmin t htx hcore' (by simpa using hacc')

lemma firstCoreDate_some_mem {txns : List Txn} {a : String} {d0 : Int}
    (h : firstCoreDate txns a = some d0) : a ∈ coreAccounts txns := by
  obtain ⟨⟨u, hu, hcore, hacc, _⟩, -⟩ := firstCoreDate_eq_some_iff.mp h
  unfold coreAccounts coreTxns
  exact List.mem_dedup.mpr (List.mem_map.mpr ⟨u, List.mem_filter.mpr ⟨hu, hcore⟩, hacc⟩)

lemma followUps_ne_nil_iff {fu : String} {txns : List Txn} {a : String} {d0 : Int} :
    followUps fu txns a d0 ≠ [] ↔
      ∃ u ∈ txns, u.account = a ∧ u.type = fu ∧ d0 < u.date := by
  unfold followUps
  rw [Ne, List.filter_eq_nil_iff]
  push_neg
  constructor
  · rintro ⟨u, hu, hp⟩
    simp only [Bool.and_eq_true, beq_iff_eq, decide_eq_true_eq] at hp
    exact ⟨u, hu, hp.1.1, hp.1.2, hp.2⟩
  · rintro ⟨u, hu, h1, h2, h3⟩
    exact ⟨u, hu, by simp [h1, h2, h3]⟩

lemma funnelRow_eq_some_iff {fu : String} {txns : List Txn} {b : String}
    {r : String × Int × Int} :
    funnelRow fu txns b = some r ↔
      ∃ d0, firstCoreDate txns b = some d0 ∧ followUps fu txns b d0 ≠ [] ∧
        r = (b, sumCredits ((coreTxns txns).filter fun t => t.account == b),
          sumCredits (followUps fu txns b d0)) := by
  unfold funnelRow
  rw [Option.bind_eq_some]
  constructor
  · rintro ⟨d0, hd0, hr⟩
    by_cases hne : followUps fu txns b d0 = []
    · simp [hne] at hr
    · rw [if_neg hne] at hr
      exact ⟨d0, hd0, hne, (Option.some_injective _ hr).symm⟩
  · rintro ⟨d0, hd0, hne, hr⟩
    exact ⟨d0, hd0, by rw [if_neg hne, hr]⟩

lemma mem_funnel_iff {fu : String} {txns : List Txn} {a : String} {ls cs : Int} :
    (a, ls, cs) ∈ funnel fu txns ↔
      ∃ d0, firstCoreDate txns a = some d0 ∧ followUps fu txns a d0 ≠ [] ∧
        ls = sumCredits ((coreTxns txns).filter fun t => t.account == a) ∧
        cs = sumCredits (followUps fu txns a d0) := by
  unfold funnel
  rw [List.mem_filterMap]
  constructor
  · rintro ⟨b, _, hfb⟩
    obtain ⟨d0, hd0, hne, hr⟩ := funnelRow_eq_some_iff.mp hfb
    obtain ⟨rfl, rfl, rfl⟩ : a = b ∧
        ls = sumCredits ((coreTxns txns).filter fun t => t.account == b) ∧
        cs = sumCredits (followUps fu txns b d0) := by
      injection hr with h1 h2; injection h2 with h2 h3; exact ⟨h1, h2, h3⟩
    exact ⟨d0, hd0, hne, rfl, rfl⟩
  · rintro ⟨d0, hd0, hne, hls, hcs⟩
    refine ⟨a, ?_, funnelRow_eq_some_iff.mpr ⟨d0, hd0, hne, by rw [hls, hcs]⟩⟩
    exact ((List.perm_insertionSort sle _).mem_iff).mpr (firstCoreDate_some_mem hd0)

lemma funnelRow_fst {fu : String} {txns : List Txn} {b : String} {r : String × Int × Int}
    (h : funnelRow fu txns b = some r) : r.1 = b := by
  obtain ⟨d0, -, -, hr⟩ := funnelRow_eq_some_iff.mp h
  rw [hr]

lemma funnel_pairwise (fu : String) (txns : List Txn) :
    (funnel fu txns).Pairwise fun x y => slt x.1 y.1 := by
  unfold funnel
  have hs : List.Sorted sle ((coreAccounts txns).insertionSort sle) :=
    List.sorted_insertionSort sle _
  have hn : ((coreAccounts txns).insertionSort sle).Nodup :=
    ((List.perm_insertionSort sle _).nodup_iff).mpr (List.nodup_dedup _)
  refine pairwise_filterMap _ ?_ (List.Pairwise.and hs hn)
  intro a b x y hab hfa hfb
  rw [funnelRow_fst hfa, funnelRow_fst hfb]
  exact slt_of_sle_of_ne hab.1 hab.2

/-- C1: the consulting-funnel query returns exactly the accounts with at least
one License/Subscription row and at least one Consulting row dated strictly
after the account's earliest License/Subscription date; each row carries the
account's License/Subscription spend and its qualifying follow-up Consulting
spend, accounts without a qualifying follow-up are absent (not zero-filled),
rows are in strictly ascending account order, and on the specification's
example table the result is the single row (A, 100, 50). -/
theorem consulting_funnel_correct :
    (∀ txns a ls cs, ((a, ls, cs) ∈ funnel tyCon txns ↔
        ∃ d0, firstCoreDate txns a = some d0 ∧
          (∃ u ∈ txns, u.account = a ∧ u.type = tyCon ∧ d0 < u.date) ∧
          ls = sumCredits ((coreTxns txns).filter fun t => t.account == a) ∧
          cs = sumCredits (followUps tyCon txns a d0)))
    ∧ (∀ txns, (funnel tyCon txns).Pairwise fun x y => slt x.1 y.1)
    ∧ funnel tyCon exC1 = [(acctA, 100, 50)] := by
  refine ⟨fun txns a ls cs => ?_, funnel_pairwise tyCon, by decide⟩
  rw [mem_funnel_iff]
  constructor
  · rintro ⟨d0, hd0, hne, hls, hcs⟩
    exact ⟨d0, hd0, followUps_ne_nil_iff.mp hne, hls, hcs⟩
  · rintro ⟨d0, hd0, hex, hls, hcs⟩
    exact ⟨d0, hd0, followUps_ne_nil_iff.mpr hex, hls, hcs⟩

/-- Witness for C1 at the specification's example table: row (A, 100, 50) is
produced, via the membership characterization with its hypotheses discharged
at the concrete input. -/
theorem consulting_funnel_correct_witness :
    (acctA, (100 : Int), (50 : Int)) ∈ funnel tyCon exC1 ∧
      funnel tyCon exC1 = [(acctA, 100, 50)] :=
  ⟨(consulting_funnel_correct.1 exC1 acctA 100 50).mpr
    ⟨1, by decide, ⟨⟨"A", tyCon, 32, 50⟩, by decide, by decide, by decide, by decide⟩,
      by decide, by decide⟩,
    consulting_funnel_correct.2.2⟩

/-! ### C2: the cumulative-revenue window -/

lemma cumRange_eq (txns : List Txn) (r : Int) :
    cumRange txns r =
      (((accountsOf txns).filter fun b => decide (r ≤ sumCredits (acctTxns txns b))).map
        fun b => sumCredits (acctTxns txns b)).sum := by
  unfold cumRange totalsList
  rw [List.filter_map, List.map_map]
  rfl

lemma mem_revcon {txns : List Txn} {r : RevRow} (h : r ∈ revcon txns) :
    r.account ∈ accountsOf txns ∧ r.total = sumCredits (acctTxns txns r.account) ∧
      r.cum = cumRange txns r.total ∧ r.pct = pctOf txns r.cum := by
  obtain ⟨p, hp, hr⟩ := List.mem_map.mp h
  have hp' : p ∈ totalsList txns := ((List.perm_insertionSort revDesc _).mem_iff).mp hp
  obtain ⟨a, ha, hpa⟩ := List.mem_map.mp hp'
  subst hr
  subst hpa
  exact ⟨ha, rfl, rfl, rfl⟩

/-- C2 counterexample: on a table with two accounts of equal total revenue
(100 each), the query's cumulative_revenue column is (200, 200) — the default
RANGE frame sums through the last peer — and not the row-by-row prefix sums
(100, 200) the claim asserts. -/
theorem revcon_rowwise_prefix_cex :
    ¬ ((revcon exC2).map RevRow.cum = runningSums 0 ((revcon exC2).map RevRow.total)) := by
  decide

/-- C2 (amended): rows are ordered by total_revenue descending, each row's
total_revenue is the account's summed credit, and cumulative_revenue follows
the default RANGE window frame — it is the sum of the totals of every account
whose total is at least the row's own total, so tied accounts share one
cumulative value; cumulative_percentage divides that by the grand total.  The
query fixes no secondary sort key, so nothing further is guaranteed about the
relative order of tied accounts. -/
theorem revcon_window_semantics :
    ∀ txns : List Txn,
      ((revcon txns).Pairwise fun r1 r2 => r2.total ≤ r1.total)
      ∧ (∀ r ∈ revcon txns,
          r.account ∈ accountsOf txns ∧
          r.total = sumCredits (acctTxns txns r.account) ∧
          r.cum = (((accountsOf txns).filter
            fun b => decide (r.total ≤ sumCredits (acctTxns txns b))).map
              fun b => sumCredits (acctTxns txns b)).sum ∧
          r.pct = pctOf txns r.cum)
      ∧ (∀ a ∈ accountsOf txns, ∃ r ∈ revcon txns, r.account = a) := by
  intro txns
  refine ⟨?_, ?_, ?_⟩
  · unfold revcon
    rw [List.pairwise_map]
    exact List.sorted_insertionSort revDesc _
  · intro r hr
    obtain ⟨ha, ht, hc, hp⟩ := mem_revcon hr
    exact ⟨ha, ht, by rw [hc, cumRange_eq, ht], hp⟩
  · intro a ha
    have hp : (a, sumCredits (acctTxns txns a)) ∈ totalsList txns :=
      List.mem_map.mpr ⟨a, ha, rfl⟩
    have hs := ((List.perm_insertionSort revDesc (totalsList txns)).mem_iff).mpr hp
    exact ⟨_, List.mem_map.mpr ⟨_, hs, rfl⟩, rfl⟩

/-- Witness for C2's amended statement at the counterexample table: the
output is sorted by total descending, and account A appears in it. -/
theorem revcon_window_semantics_witness :
    ((revcon exC2).Pairwise fun r1 r2 => r2.total ≤ r1.total)
      ∧ ∃ r ∈ revcon exC2, r.account = acctA :=
  ⟨(revcon_window_semantics exC2).1,
    (revcon_window_semantics exC2).2.2 acctA (by decide)⟩

/-! ### C3: monotonicity of the cumulative percentage -/

lemma filtered_sum_le {α : Type} (l : List α) (f : α → Int) (p q : α → Bool)
    (hf : ∀ x ∈ l, 0 ≤ f x) (hpq : ∀ x, p x = true → q x = true) :
    ((l.filter p).map f).sum ≤ ((l.filter q).map f).sum := by
  induction l with
  | nil => simp
  | cons a l ih =>
    have ha : 0 ≤ f a := hf a (by simp)
    have ih' := ih fun x hx => hf x (List.mem_cons_of_mem a hx)
    by_cases hp : p a = true
    · rw [List.filter_cons_of_pos hp, List.filter_cons_of_pos (hpq a hp)]
      simpa using add_le_add_left ih' (f a)
    · rw [List.filter_cons_of_neg (by simpa using hp)]
      by_cases hq : q a = true
      · rw [List.filter_cons_of_pos hq]
        simp only [List.map_cons, List.sum_cons]
        exact le_add_of_nonneg_of_le ha ih'
      · rw [List.filter_cons_of_neg (by simpa using hq)]
        exact ih'

lemma filterMap_eq_map_of {α β : Type} {f : α → Option β} {g : α → β} :
    ∀ {l : List α}, (∀ x ∈ l, f x = some (g x)) → l.filterMap f = l.map g := by
  intro l
  induction l with
  | nil => simp
  | cons a l ih =>
    intro h
    rw [List.filterMap_cons, h a (by simp), List.map_cons,
      ih fun x hx => h x (List.mem_cons_of_mem a hx)]

lemma pairwise_getLast {α : Type} {R : α → α → Prop} :
    ∀ {l : List α}, l.Pairwise R → ∀ (hne : l ≠ []) (y : α), y ∈ l →
      y = l.getLast hne ∨ R y (l.getLast hne) := by
  intro l hl
  induction hl with
  | nil => intro hne; exact absurd rfl hne
  | @cons a l ha hl ih =>
    intro hne y hy
    cases l with
    | nil =>
      simp only [List.mem_singleton] at hy
      simp [hy]
    | cons b t =>
      rw [List.getLast_cons (by simp)]
      rcases List.mem_cons.mp hy with rfl | hy'
      · exact Or.inr (ha _ (List.getLast_mem _))
      · exact ih (by simp) y hy'

lemma totals_nonneg {txns : List Txn} (hc : ∀ t ∈ txns, 0 ≤ t.credit) :
    ∀ p ∈ totalsList txns, 0 ≤ p.2 := by
  intro p hp
  obtain ⟨a, -, rfl⟩ := List.mem_map.mp hp
  refine List.sum_nonneg ?_
  intro x hx
  obtain ⟨t, ht, rfl⟩ := List.mem_map.mp hx
  exact hc t (List.mem_filter.mp ht).1

lemma cumRange_mono {txns : List Txn} (hc : ∀ t ∈ txns, 0 ≤ t.credit)
    {r1 r2 : Int} (h : r2 ≤ r1) : cumRange txns r1 ≤ cumRange txns r2 := by
  refine filtered_sum_le _ _ _ _ (totals_nonneg hc) ?_
  intro x hx
  simp only [decide_eq_true_eq] at hx ⊢
  exact le_trans h hx

/-- C3: on a table with non-negative credits and a strictly positive grand
total, every revenue-concentration row has a present cumulative_percentage,
the percentages are non-decreasing in output order, and the last one is
exactly 100. -/
theorem revcon_percentage_monotone (txns : List Txn)
    (hc : ∀ t ∈ txns, 0 ≤ t.credit) (hg : 0 < grandTotal txns) :
    ((revcon txns).filterMap RevRow.pct).Chain' (· ≤ ·) ∧
    ((revcon txns).filterMap RevRow.pct).length = (revcon txns).length ∧
    ((revcon txns).filterMap RevRow.pct).getLast? = some 100 ∧
    revcon txns ≠ [] := by
  have hg' : grandTotal txns ≠ 0 := ne_of_gt hg
  have hgq : (0 : ℚ) < (grandTotal txns : ℚ) := by exact_mod_cast hg
  have hpct : ∀ r ∈ revcon txns,
      RevRow.pct r = some ((r.cum : ℚ) / (grandTotal txns : ℚ) * 100) := by
    intro r hr
    obtain ⟨-, -, -, hp⟩ := mem_revcon hr
    rw [hp]
    unfold pctOf
    rw [if_neg hg']
  have hmap : (revcon txns).filterMap RevRow.pct =
      (revcon txns).map fun r => (r.cum : ℚ) / (grandTotal txns : ℚ) * 100 :=
    filterMap_eq_map_of hpct
  have hsorted : (revcon txns).Pairwise fun r1 r2 => r2.total ≤ r1.total :=
    (revcon_window_semantics txns).1
  have hcum : ∀ r ∈ revcon txns, r.cum = cumRange txns r.total := by
    intro r hr
    exact (mem_revcon hr).2.2.1
  -- the table is non-empty
  have htl : totalsList txns ≠ [] := by
    intro he
    rw [grandTotal, he] at hg
    simp at hg
  have hne : revcon txns ≠ [] := by
    unfold revcon
    simp only [ne_eq, List.map_eq_nil_iff]
    intro he
    exact htl (List.Perm.eq_nil ((List.perm_insertionSort revDesc _).symm.trans (he ▸ List.Perm.refl _)))
  refine ⟨?_, ?_, ?_, hne⟩
  · -- non-decreasing
    rw [hmap]
    rw [List.chain'_map]
    refine List.Pairwise.chain' ?_
    refine List.Pairwise.imp_of_mem ?_ hsorted
    intro r1 r2 h1 h2 hle
    have : r1.cum ≤ r2.cum := by
      rw [hcum r1 h1, hcum r2 h2]
      exact cumRange_mono hc hle
    exact mul_le_mul_of_nonneg_right
      (div_le_div_of_nonneg_right (by exact_mod_cast this) (le_of_lt hgq)) (by norm_num)
  · rw [hmap, List.length_map]
  · -- the last percentage is 100
    rw [hmap, List.getLast?_map]
    have hlast : (revcon txns).getLast? = some ((revcon txns).getLast hne) :=
      List.getLast?_eq_getLast _ hne
    rw [hlast]
    set r := (revcon txns).getLast hne with hr
    have hrm : r ∈ revcon txns := List.getLast_mem hne
    have hmin : ∀ p ∈ totalsList txns, r.total ≤ p.2 := by
      intro p hp
      have hp' := ((List.perm_insertionSort revDesc (totalsList txns)).mem_iff).mpr hp
      have hrow : (⟨p.1, p.2, cumRange txns p.2, pctOf txns (cumRange txns p.2)⟩ : RevRow)
          ∈ revcon txns := List.mem_map.mpr ⟨p, hp', rfl⟩
      rcases pairwise_getLast hsorted hne _ hrow with heq | hR
      · rw [hr, ← heq]
      · rw [← hr] at hR
        exact hR
    have hcr : r.cum = grandTotal txns := by
      rw [hcum r hrm, cumRange]
      rw [List.filter_eq_self.mpr ?_]
      · rfl
      · intro p hp
        simpa using hmin p hp
    simp only [Option.map_some']
    rw [hcr]
    rw [div_self (ne_of_gt hgq)]
    norm_num

/-- Witness for C3 at a concrete two-account table, its hypotheses discharged
by computation. -/
theorem revcon_percentage_monotone_witness :
    (exC3.all fun t => decide (0 ≤ t.credit)) = true ∧ 0 < grandTotal exC3 ∧
      (((revcon exC3).filterMap RevRow.pct).Chain' (· ≤ ·) ∧
        ((revcon exC3).filterMap RevRow.pct).length = (revcon exC3).length ∧
        ((revcon exC3).filterMap RevRow.pct).getLast? = some 100 ∧
        revcon exC3 ≠ []) :=
  ⟨by decide, by decide,
    revcon_percentage_monotone exC3 (by decide) (by decide)⟩

/-! ### C4: the training attach rate -/

lemma dedup_toFinset {α : Type} [DecidableEq α] (l : List α) :
    l.dedup.toFinset = l.toFinset := by
  ext a
  simp

lemma attachNum_eq_inter_card (txns : List Txn) :
    attachNum txns =
      (((txns.filter fun t => t.type == tyTrn).map Txn.account).toFinset ∩
        ((txns.filter isCore).map Txn.account).toFinset).card := by
  unfold attachNum
  have hnd : (trainingAccounts txns).Nodup := List.nodup_dedup _
  have hnd' := List.Nodup.filter (fun a => (coreAccounts txns).contains a) hnd
  rw [← List.toFinset_card_of_nodup hnd', List.toFinset_filter]
  congr 1
  rw [show (trainingAccounts txns).toFinset =
      ((txns.filter fun t => t.type == tyTrn).map Txn.account).toFinset from
    dedup_toFinset _]
  rw [← Finset.filter_mem_eq_inter]
  apply Finset.filter_congr
  intro x _
  simp [List.elem_iff, coreAccounts, coreTxns]

lemma attachDen_eq_card (txns : List Txn) :
    attachDen txns = ((txns.filter isCore).map Txn.account).toFinset.card := by
  unfold attachDen coreAccounts coreTxns
  rw [← List.toFinset_card_of_nodup (List.nodup_dedup _), dedup_toFinset]

/-- C4: with at least one core-product account, the attach-rate scalar equals
the number of distinct accounts holding both a core-product and a Training
transaction, times 100, divided by the number of distinct core-product
accounts, and any produced value lies in [0, 100]; with no core-product
account the scalar is NULL and the widget shows the no-data dash — never a
0% value. -/
theorem attach_rate_correct (txns : List Txn) :
    (attachDen txns ≠ 0 →
      attachRate txns = some
        (((((txns.filter fun t => t.type == tyTrn).map Txn.account).toFinset ∩
            ((txns.filter isCore).map Txn.account).toFinset).card : ℚ) * 100 /
          (((txns.filter isCore).map Txn.account).toFinset.card : ℚ)) ∧
      ∀ r, attachRate txns = some r → 0 ≤ r ∧ r ≤ 100)
    ∧ (attachDen txns = 0 →
        attachRate txns = none ∧ attachWidget txns = .noData ∧
          ∀ q, attachWidget txns ≠ .value q) := by
  constructor
  · intro hden
    have hnum := attachNum_eq_inter_card txns
    have hden' := attachDen_eq_card txns
    constructor
    · rw [attachRate, if_neg hden, hnum, hden']
    · intro r hr
      rw [attachRate, if_neg hden] at hr
      have hr' : r = (attachNum txns : ℚ) * 100 / (attachDen txns : ℚ) :=
        (Option.some_injective _ hr).symm
      have hle : attachNum txns ≤ attachDen txns := by
        rw [hnum, hden']
        exact Finset.card_le_card Finset.inter_subset_right
      have hdq : (0 : ℚ) < (attachDen txns : ℚ) := by
        exact_mod_cast Nat.pos_of_ne_zero hden
      constructor
      · rw [hr']
        positivity
      · rw [hr', div_le_iff₀ hdq]
        calc (attachNum txns : ℚ) * 100 ≤ (attachDen txns : ℚ) * 100 := by
              exact mul_le_mul_of_nonneg_right (by exact_mod_cast hle) (by norm_num)
          _ = 100 * (attachDen txns : ℚ) := by ring
  · intro hden
    have h0 : attachRate txns = none := by rw [attachRate, if_pos hden]
    refine ⟨h0, ?_, ?_⟩
    · rw [attachWidget, h0]
    · intro q
      rw [attachWidget, h0]
      simp

/-- Witness for C4: on the concrete table the rate is 50 and lies in
[0, 100]; on the empty table the widget shows the no-data dash. -/
theorem attach_rate_correct_witness :
    (0 ≤ (50 : ℚ) ∧ (50 : ℚ) ≤ 100) ∧ attachRate [] = none ∧
      attachWidget [] = .noData :=
  have h50 : attachRate exC4 = some 50 := by
    have h1 : attachNum exC4 = 1 := by decide
    have h2 : attachDen exC4 = 2 := by decide
    rw [attachRate, if_neg (by decide), h1, h2]
    norm_num
  ⟨((attach_rate_correct exC4).1 (by decide)).2 50 h50,
    ((attach_rate_correct []).2 (by decide)).1,
    ((attach_rate_correct []).2 (by decide)).2.1⟩

/-! ### C5: the service basket -/

lemma mem_basketRows {txns : List Txn} {t1 t2 a : String} :
    (t1, t2, a) ∈ basketRows txns ↔
      slt t1 t2 ∧ a ∈ acctSet txns t1 ∧ a ∈ acctSet txns t2 := by
  unfold basketRows acctSet
  simp only [List.mem_flatMap, List.mem_map, List.mem_filter, List.mem_toFinset,
    Bool.and_eq_true, beq_iff_eq, decide_eq_true_eq]
  constructor
  · rintro ⟨x, hx, y, ⟨hy, hacc, hlt⟩, heq⟩
    obtain ⟨h1, h2, h3⟩ : x.type = t1 ∧ y.type = t2 ∧ x.account = a := by
      injection heq with e1 e2; injection e2 with e2 e3; exact ⟨e1, e2, e3⟩
    subst h1; subst h2; subst h3
    exact ⟨hlt, ⟨x, ⟨hx, rfl⟩, rfl⟩, ⟨y, ⟨hy, rfl⟩, hacc.symm⟩⟩
  · rintro ⟨hlt, ⟨x, ⟨hx, hxt⟩, hxa⟩, ⟨y, ⟨hy, hyt⟩, hya⟩⟩
    exact ⟨x, hx, y, ⟨hy, by rw [hxa, hya], by rw [hxt, hyt]; exact hlt⟩,
      by rw [hxt, hyt, hxa]⟩

lemma mem_basketKeys {txns : List Txn} {t1 t2 : String} :
    (t1, t2) ∈ basketKeys txns ↔
      slt t1 t2 ∧ (acctSet txns t1 ∩ acctSet txns t2).Nonempty := by
  unfold basketKeys
  rw [List.mem_dedup]
  constructor
  · intro h
    obtain ⟨r, hr, heq⟩ := List.mem_map.mp h
    obtain ⟨h1, h2⟩ : r.1 = t1 ∧ r.2.1 = t2 := by
      injection heq with e1 e2; exact ⟨e1, e2⟩
    have hr' : (t1, t2, r.2.2) ∈ basketRows txns := by
      rw [← h1, ← h2]; exact hr
    obtain ⟨hlt, ha1, ha2⟩ := mem_basketRows.mp hr'
    exact ⟨hlt, ⟨r.2.2, Finset.mem_inter.mpr ⟨ha1, ha2⟩⟩⟩
  · rintro ⟨hlt, ⟨a, ha⟩⟩
    obtain ⟨ha1, ha2⟩ := Finset.mem_inter.mp ha
    exact List.mem_map.mpr ⟨(t1, t2, a), mem_basketRows.mpr ⟨hlt, ha1, ha2⟩, rfl⟩

lemma basketCount_eq {txns : List Txn} {t1 t2 : String} (h : slt t1 t2) :
    basketCount txns t1 t2 = (acctSet txns t1 ∩ acctSet txns t2).card := by
  unfold basketCount
  rw [← List.toFinset_card_of_nodup (List.nodup_dedup _), dedup_toFinset]
  congr 1
  ext a
  rw [List.mem_toFinset, Finset.mem_inter]
  constructor
  · intro hmem
    obtain ⟨r, hr, hra⟩ := List.mem_map.mp hmem
    obtain ⟨hr', hkey⟩ := List.mem_filter.mp hr
    simp only [Bool.and_eq_true, beq_iff_eq] at hkey
    have : (t1, t2, a) ∈ basketRows txns := by
      rw [← hkey.1, ← hkey.2, ← hra]
      exact hr'
    obtain ⟨-, h1, h2⟩ := mem_basketRows.mp this
    exact ⟨h1, h2⟩
  · rintro ⟨h1, h2⟩
    refine List.mem_map.mpr ⟨(t1, t2, a), List.mem_filter.mpr ⟨?_, by simp⟩, rfl⟩
    exact mem_basketRows.mpr ⟨h, h1, h2⟩

lemma mem_basket {txns : List Txn} {t1 t2 : String} {n : ℕ} :
    (t1, t2, n) ∈ basket txns ↔
      slt t1 t2 ∧ (acctSet txns t1 ∩ acctSet txns t2).Nonempty ∧
        n = (acctSet txns t1 ∩ acctSet txns t2).card := by
  unfold basket
  rw [(List.perm_insertionSort cntDesc _).mem_iff]
  constructor
  · intro hm
    obtain ⟨k, hk, heq⟩ := List.mem_map.mp hm
    obtain ⟨h1, h2, h3⟩ : k.1 = t1 ∧ k.2 = t2 ∧ basketCount txns k.1 k.2 = n := by
      injection heq with e1 e2; injection e2 with e2 e3; exact ⟨e1, e2, e3⟩
    have hkk : k = (t1, t2) := by rw [← h1, ← h2]
    have hk' : (t1, t2) ∈ basketKeys txns := hkk ▸ hk
    obtain ⟨hlt, hne⟩ := mem_basketKeys.mp hk'
    refine ⟨hlt, hne, ?_⟩
    rw [← h3, h1, h2, basketCount_eq hlt]
  · rintro ⟨hlt, hne, hn⟩
    refine List.mem_map.mpr ⟨(t1, t2), mem_basketKeys.mpr ⟨hlt, hne⟩, ?_⟩
    rw [basketCount_eq hlt, ← hn]

/-- C5: the basket query emits, for each unordered pair of distinct types
co-occurring in at least one account, exactly one row — oriented by the
collation, so never a self-pair and never both orientations — whose count is
the cardinality of the intersection of the two types' account sets, with
rows ordered by count descending. -/
theorem service_basket_correct :
    ∀ txns : List Txn,
      (∀ t1 t2 n, ((t1, t2, n) ∈ basket txns ↔
        slt t1 t2 ∧ (acctSet txns t1 ∩ acctSet txns t2).Nonempty ∧
          n = (acctSet txns t1 ∩ acctSet txns t2).card))
      ∧ (∀ t1 t2 n, (t1, t2, n) ∈ basket txns → t1 ≠ t2)
      ∧ (∀ t1 t2 n m, (t1, t2, n) ∈ basket txns → (t2, t1, m) ∈ basket txns → False)
      ∧ (((basket txns).map fun r => (r.1, r.2.1)).Nodup)
      ∧ ((basket txns).Pairwise fun x y => y.2.2 ≤ x.2.2) := by
  intro txns
  refine ⟨fun t1 t2 n => mem_basket, ?_, ?_, ?_, ?_⟩
  · intro t1 t2 n hm
    exact slt_ne (mem_basket.mp hm).1
  · intro t1 t2 n m h1 h2
    exact slt_asymm (mem_basket.mp h1).1 (mem_basket.mp h2).1
  · have hperm : basket txns |>.Perm
        ((basketKeys txns).map fun k => (k.1, k.2, basketCount txns k.1 k.2)) :=
      List.perm_insertionSort cntDesc _
    refine (List.Perm.nodup_iff (List.Perm.map _ hperm)).mpr ?_
    rw [List.map_map]
    have : ((fun r : String × String × ℕ => (r.1, r.2.1)) ∘
        fun k : String × String => (k.1, k.2, basketCount txns k.1 k.2)) = id := by
      funext k
      rfl
    rw [this, List.map_id]
    exact List.nodup_dedup _
  · exact List.sorted_insertionSort cntDesc _

/-- Witness for C5: on the concrete table the single emitted pair (S1, S2)
is collation-oriented, co-occurs in account A, and counts one account. -/
theorem service_basket_correct_witness :
    slt sv1 sv2 ∧ (acctSet exC5 sv1 ∩ acctSet exC5 sv2).Nonempty ∧
      1 = (acctSet exC5 sv1 ∩ acctSet exC5 sv2).card :=
  ((service_basket_correct exC5).1 sv1 sv2 1).mp (by decide)

/-! ### C6–C8: undefined metrics, widget independence, fail-stop runs -/

lemma renderSeq_spec {T : Type} (src : QueryId → Except String T) :
    ∀ l : List QueryId,
      ((renderSeq src l).1.map Prod.fst = l.takeWhile fun q => isOkB (src q))
      ∧ ((renderSeq src l).2 =
          (l.find? fun q => !(isOkB (src q))).bind fun q => errOf (src q)) := by
  intro l
  induction l with
  | nil => simp [renderSeq]
  | cons q qs ih =>
    cases hq : src q with
    | error e =>
      have hr : renderSeq src (q :: qs) = ([], some e) := by rw [renderSeq, hq]
      have hb : isOkB (src q) = false := by rw [hq]; rfl
      have he : errOf (src q) = some e := by rw [hq]; rfl
      rw [hr]
      exact ⟨by simp [List.takeWhile_cons, hb],
        by simp [List.find?_cons, hb, he]⟩
    | ok t =>
      have hr : renderSeq src (q :: qs) =
          ((q, t) :: (renderSeq src qs).1, (renderSeq src qs).2) := by rw [renderSeq, hq]
      have hb : isOkB (src q) = true := by rw [hq]; rfl
      rw [hr]
      exact ⟨by simp [List.takeWhile_cons, hb, ih.1],
        by simp [List.find?_cons, hb, ih.2]⟩

lemma mem_ttRows {txns : List Txn} {a : String} {d : Int} :
    (a, d) ∈ ttRows txns ↔
      ∃ d0, firstCoreDate txns a = some d0 ∧
        ∃ d1, firstTrainingAfter txns a d0 = some d1 ∧ d = d1 - d0 := by
  unfold ttRows
  rw [List.mem_filterMap]
  constructor
  · rintro ⟨b, -, hb⟩
    obtain ⟨d0, hd0, hmap⟩ := Option.bind_eq_some.mp hb
    obtain ⟨d1, hd1, heq⟩ := Option.map_eq_some'.mp hmap
    obtain ⟨rfl, rfl⟩ : b = a ∧ d1 - d0 = d := by
      injection heq with e1 e2; exact ⟨e1, e2⟩
    exact ⟨d0, hd0, d1, hd1, rfl⟩
  · rintro ⟨d0, hd0, d1, hd1, rfl⟩
    exact ⟨a, firstCoreDate_some_mem hd0, by rw [hd0]; simpa using by rw [hd1]⟩

/-- C6: when a metric's qualifying set is empty or its denominator vanishes,
the engine's NULL semantics guard the computation: the attach rate and the
average-days scalar become NULL and their widgets render the no-data dash,
every revenue-concentration row has a NULL percentage when the grand total is
zero, and since an undefined metric is a NULL inside a successful result —
not an engine failure — all eight widgets of such a run still render. -/
theorem undefined_metrics_guarded :
    ∀ txns : List Txn,
      (attachDen txns = 0 → attachRate txns = none ∧ attachWidget txns = .noData)
      ∧ (ttRows txns = [] → avgDays txns = none ∧
          timeWidget ((avgDays txns).map EngineDur.numeric) = .noData)
      ∧ (grandTotal txns = 0 → ∀ r ∈ revcon txns, r.pct = none)
      ∧ (∀ (T : Type) (src : QueryId → Except String T), (∀ q, isOkB (src q) = true) →
          (runDashboard src).1.length = 8 ∧ (runDashboard src).2 = none) := by
  intro txns
  refine ⟨?_, ?_, ?_, ?_⟩
  · intro h
    have h0 : attachRate txns = none := by rw [attachRate, if_pos h]
    exact ⟨h0, by rw [attachWidget, h0]⟩
  · intro h
    have h0 : avgDays txns = none := by rw [avgDays, if_pos h]
    exact ⟨h0, by rw [h0]; rfl⟩
  · intro hg r hr
    have hp := (mem_revcon hr).2.2.2
    rw [hp, pctOf, if_pos hg]
  · intro T src hok
    have h := renderSeq_spec src queryOrder
    have h1 : (renderSeq src queryOrder).1.length = 8 := by
      have hlen : (renderSeq src queryOrder).1.length =
          ((renderSeq src queryOrder).1.map Prod.fst).length := (List.length_map _ _).symm
      rw [hlen, h.1, List.takeWhile_eq_self_iff.mpr fun q _ => hok q]
      rfl
    have h2 : (renderSeq src queryOrder).2 = none := by
      rw [h.2, List.find?_eq_none.mpr fun q _ => by simp [hok q]]
      rfl
    exact ⟨h1, h2⟩

/-- Witness for C6 at the empty table (every qualifying set empty) and an
all-successful run of the eight queries. -/
theorem undefined_metrics_guarded_witness :
    (attachRate [] = none ∧ attachWidget [] = MetricDisplay.noData) ∧
      avgDays [] = none ∧
      (runDashboard fun _ : QueryId => Except.ok ()).1.length = 8 :=
  ⟨(undefined_metrics_guarded []).1 rfl,
    ((undefined_metrics_guarded []).2.1 rfl).1,
    ((undefined_metrics_guarded []).2.2.2 Unit (fun _ => Except.ok ()) fun _ => rfl).1⟩

/-! ### C7: time to training -/

/-- C7 counterexample: an engine duration of 45 days and 12 hours stands for
45.5 days, but the widget's `days`-attribute path renders 45 — the fractional
part is dropped, so the conversion does not preserve the whole-and-fractional
day count for every duration representation. -/
theorem time_widget_truncation_cex :
    EngineDur.asDays (.duration 45 43200) = 91 / 2 ∧
      widgetDays (some (.duration 45 43200)) = some 45 ∧ (45 : ℚ) ≠ 91 / 2 := by
  refine ⟨?_, rfl, by norm_num⟩
  rw [EngineDur.asDays]
  norm_num

/-- C7 (amended): the scalar is the average, over exactly the accounts with a
core purchase and a strictly later Training purchase, of (first Training date
after the first core date) − (first core date), and is NULL when no account
qualifies; the widget preserves the day count for a plain numeric engine
value but truncates a structured duration to its whole-day component. -/
theorem time_to_training_semantics :
    ∀ txns : List Txn,
      (∀ a d, ((a, d) ∈ ttRows txns ↔
        ∃ d0, firstCoreDate txns a = some d0 ∧
          ∃ d1, firstTrainingAfter txns a d0 = some d1 ∧ d = d1 - d0))
      ∧ (ttRows txns ≠ [] → avgDays txns =
          some ((((ttRows txns).map fun p => (p.2 : ℚ)).sum) / ((ttRows txns).length : ℚ)))
      ∧ (ttRows txns = [] → avgDays txns = none)
      ∧ (∀ q : ℚ, widgetDays (some (.numeric q)) = some q)
      ∧ (∀ ds ss, widgetDays (some (.duration ds ss)) = some (ds : ℚ))
      ∧ widgetDays none = none := by
  intro txns
  refine ⟨fun a d => mem_ttRows, ?_, ?_, fun q => rfl, fun ds ss => rfl, rfl⟩
  · intro h
    rw [avgDays, if_neg h]
  · intro h
    rw [avgDays, if_pos h]

/-- Witness for C7's amended statement: the average on the concrete table is
45 days, and a numeric engine value of 45 is rendered as 45. -/
theorem time_to_training_semantics_witness :
    avgDays exC7 = some 45 ∧ widgetDays (some (.numeric 45)) = some 45 := by
  have h := (time_to_training_semantics exC7).2.1 (by decide)
  have h2 : ttRows exC7 = [(acctA, 45)] := by decide
  refine ⟨?_, (time_to_training_semantics exC7).2.2.2.1 45⟩
  rw [h, h2]
  norm_num

/-! ### C8: a failing query ends the run -/

/-- C8 (amended): the eight queries are evaluated in a fixed order within one
script run and there is no per-query exception handling: the widgets rendered
are exactly those before the first failing query, and the surfaced error is
the first failure's. -/
theorem dashboard_fail_stop :
    ∀ (T : Type) (src : QueryId → Except String T),
      ((runDashboard src).1.map Prod.fst = queryOrder.takeWhile fun q => isOkB (src q))
      ∧ ((runDashboard src).2 = (queryOrder.find? fun q => !(isOkB (src q))).bind
          fun q => errOf (src q)) :=
  fun _ src => renderSeq_spec src queryOrder

/-- C8 counterexample: with the first query failing and the remaining seven
healthy, the run renders no widget at all — not the seven the claim
promises — and surfaces the first error. -/
theorem dashboard_fail_stop_cex :
    (runDashboard srcFail1).1 = [] ∧ (runDashboard srcFail1).2 = some errMsg ∧
      (runDashboard srcFail1).1.length ≠ 7 := by decide

/-- Witness for C8's amended statement: with no failure, all eight widgets
render in query order and no error is surfaced. -/
theorem dashboard_fail_stop_witness :
    (runDashboard allOk).1.map Prod.fst = queryOrder ∧ (runDashboard allOk).2 = none :=
  ⟨(dashboard_fail_stop Unit allOk).1.trans (by decide),
    (dashboard_fail_stop Unit allOk).2.trans (by decide)⟩

/-! ### C9: displayed tables versus chart series -/

/-- C9 counterexample: the service-basket query yields six rows, but with
top-N = 5 the widget's displayed table has only five — the displayed table is
not the full raw query output. -/
theorem basket_table_truncation_cex :
    (basket exC9).length = 6 ∧ (basketTableRows exC9 5).length = 5 ∧
      basketTableRows exC9 5 ≠ basket exC9 := by decide

/-- C9 (amended): the three funnel widgets and the revenue-concentration
widget display the untouched query result, the synthetic (rank 0, 0%) origin
point exists only at the head of the chart series — every other chart point
has rank at least 1 — and chart-side top-N truncation keeps chart series at
most N long; the service-basket widget alone displays the truncated, re-sorted
top-N table instead of the raw result. -/
theorem display_vs_chart :
    ∀ (txns : List Txn) (n : ℕ),
      funnelTable tyCon txns = funnel tyCon txns
      ∧ funnelTable tyTrn txns = funnel tyTrn txns
      ∧ funnelTable tyEsri txns = funnel tyEsri txns
      ∧ revconTable txns = revcon txns
      ∧ (revconChart txns).head? = some (0, some 0)
      ∧ (∀ p ∈ (revconChart txns).tail, 1 ≤ p.1)
      ∧ (funnelChart tyCon txns n).length ≤ n
      ∧ (basket txns ≠ [] →
          basketTableRows txns n = ((basket txns).insertionSort cntDesc).take n)
      ∧ (basket txns = [] → basketTableRows txns n = []) := by
  intro txns n
  refine ⟨rfl, rfl, rfl, rfl, rfl, ?_, ?_, ?_, ?_⟩
  · intro p hp
    simp only [revconChart, List.tail_cons, List.mem_map] at hp
    obtain ⟨q, -, rfl⟩ := hp
    exact Nat.le_add_left 1 q.1
  · rw [funnelChart, List.length_take]
    exact min_le_left _ _
  · intro h
    rw [basketTableRows, if_neg h]
  · intro h
    rw [basketTableRows, if_pos h]

/-- Witness for C9's amended statement on the concrete four-service table:
the displayed basket table is the five-row truncation, and the chart's head
is the synthetic origin. -/
theorem display_vs_chart_witness :
    basketTableRows exC9 5 = ((basket exC9).insertionSort cntDesc).take 5 ∧
      (revconChart exC9).head? = some (0, some 0) :=
  ⟨(display_vs_chart exC9 5).2.2.2.2.2.2.2.1 (by decide),
    (display_vs_chart exC9 5).2.2.2.2.1⟩

/-! ### C10: the table identifier is spliced without validation -/

lemma data_append (a b : String) : (a ++ b).data = a.data ++ b.data := by
  cases a
  cases b
  rfl

lemma infix_of_splice (x y z : String) : y.data <:+: (x ++ (y ++ z)).data := by
  rw [data_append, data_append, ← List.append_assoc]
  exact List.infix_append _ _ _

/-- C10 counterexample: an identifier full of illegal characters (spaces,
semicolons, a comment introducer) is not rejected — it is spliced verbatim
into the consulting query text. -/
theorem table_name_validation_cex :
    legalIdent badIdent = false ∧ badIdent.data <:+: (consultingSQL badIdent).data :=
  ⟨by decide, infix_of_splice cFrag1 badIdent _⟩

/-- C10 (amended): the query layer performs no identifier validation at all —
every user-supplied table name, legal or not, occurs verbatim inside each of
the eight built query texts. -/
theorem table_name_spliced_unchecked :
    ∀ t : String, ∀ q ∈ queryTexts t, t.data <:+: q.data := by
  intro t q hq
  simp only [queryTexts, List.mem_cons, List.not_mem_nil, or_false] at hq
  rcases hq with rfl | rfl | rfl | rfl | rfl | rfl | rfl | rfl
  · exact infix_of_splice cFrag1 t _
  · exact infix_of_splice cFrag1 t _
  · exact infix_of_splice cFrag1 t _
  · exact infix_of_splice rFrag1 t _
  · exact infix_of_splice aFrag1 t _
  · exact infix_of_splice bFrag1 t _
  · exact infix_of_splice sFrag1 t _
  · exact infix_of_splice mFrag1 t _

/-- Witness for C10's amended statement: an identifier with a space occurs
verbatim in the monthly-trends query text. -/
theorem table_name_spliced_unchecked_witness :
    badIdent2.data <:+: (trendsSQL badIdent2).data :=
  table_name_spliced_unchecked badIdent2 (trendsSQL badIdent2) (by simp [queryTexts])
